import Mathlib

/-!
Verification of the integration service (routers/service.py, database/models.py).

The handlers are shallowly embedded as pure Lean functions.  The relational
store is a list of Integration records; a handler takes the store and returns
the response together with the store after commit.  Spreadsheet parsing
(pandas read_excel) is external: a file is modelled as either unparseable or
an already-parsed sheet of header names and rows.  A cell holds a string, an
integer, or a missing value (NaN), which covers the coercions the importer
performs; commits by the store collaborator are modelled as always succeeding.
-/

/-- A spreadsheet cell as produced by the parser: a string, an integer, or a
missing value (pandas NaN). -/
inductive Cell where
  | str (s : String)
  | int (n : Int)
  | nan
deriving Repr, DecidableEq

/-- A parsed spreadsheet row: the field map from column name to cell value
(what row.to_dict() yields in the source). -/
abbrev Row := List (String × Cell)

/-- Cell lookup in a row; a column absent from the row reads as NaN, as in a
pandas frame. -/
def Row.get (r : Row) (k : String) : Cell :=
  (List.lookup k r).getD Cell.nan

/-- A parsed spreadsheet: header names and the data rows, in file order. -/
structure Sheet where
  headers : List String
  rows : List Row
deriving Repr, DecidableEq

/-- The uploaded payload as seen after the parsing step: either pandas
read_excel raised (unparseable) or it produced a sheet. -/
inductive FileInput where
  | unparseable
  | parsed (sheet : Sheet)
deriving Repr, DecidableEq

/-- Python str() applied to a cell: a string is itself, an integer prints in
decimal, NaN prints as the string nan. -/
def pyStr : Cell → String
  | .str s => s
  | .int n => toString n
  | .nan => "nan"

/-- Python strip() with no argument: remove whitespace from both ends of the
string. -/
def pyStrip (s : String) : String :=
  ⟨((s.data.dropWhile Char.isWhitespace).reverse.dropWhile Char.isWhitespace).reverse⟩

/-- Decimal value of a digit list, most significant first. -/
def digitsToNat (cs : List Char) : Nat :=
  cs.foldl (fun n c => n * 10 + (c.toNat - 48)) 0

/-- Python int(string): surrounding whitespace is ignored, an optional sign
is followed by one or more decimal digits; anything else fails. -/
def pyParseInt (s : String) : Option Int :=
  match (pyStrip s).toList with
  | [] => none
  | c :: cs =>
    let signAndDigits : Int × List Char :=
      if c = '-' then (-1, cs) else if c = '+' then (1, cs) else (1, c :: cs)
    if signAndDigits.2.isEmpty || !signAndDigits.2.all Char.isDigit then none
    else some (signAndDigits.1 * (digitsToNat signAndDigits.2 : Int))

/-- Python int() applied to a cell: an integer is itself, NaN raises, a
string is parsed as a decimal integer or raises ValueError. -/
def pyInt : Cell → Except String Int
  | .int n => .ok n
  | .nan => .error "cannot convert float NaN to integer"
  | .str s =>
    match pyParseInt s with
    | some n => .ok n
    | none => .error ("invalid literal for int() with base 10: " ++ s)

/-- One row of the integrations table (database/models.py, class Integration).
integration_id is the store-assigned primary key, none while a record is only
staged; private_key_file is none when the constructor was not given one. -/
structure Integration where
  integration_id : Option Int
  integration_key : String
  user_id : Int
  account_id : Int
  private_key_file : Option String
  email : String
  status : String
deriving Repr, DecidableEq

/-- Nullability declared for one column of a table schema. -/
structure ColumnSpec where
  name : String
  nullable : Bool
deriving Repr, DecidableEq

/-- Column declarations of the integrations table (database/models.py lines
45 to 51); status has no explicit nullable flag, hence nullable. -/
def integrationTable : List ColumnSpec :=
  [⟨"integration_id", false⟩,
   ⟨"integration_key", false⟩,
   ⟨"user_id", false⟩,
   ⟨"account_id", false⟩,
   ⟨"private_key_file", false⟩,
   ⟨"email", false⟩,
   ⟨"status", true⟩]

/-- Modelled from the spec: the authentication collaborator
(decorators/jwt_decorator.py, not part of the three source files) resolves a
bearer token to a user identity and an admin flag, or rejects the request
before the handler runs.  A handler therefore always receives both. -/
structure TokenData where
  is_admin : Bool
  user_id : Int
deriving Repr, DecidableEq

/-- One entry of failed_records: the original row as a field map together
with the error description string. -/
structure FailedRecord where
  row : Row
  error : String
deriving Repr, DecidableEq

/-- The data field of a response envelope. -/
inductive Payload where
  | failedRecords (records : List FailedRecord)
  | integration (i : Integration)
  | integrations (l : List Integration)
  | toggleResult (integration_id : Option Int) (new_status : String)
deriving Repr, DecidableEq

/-- The uniform response envelope returned by every endpoint. -/
structure Response where
  status_code : Int
  error_code : Option String
  message : String
  data : Option Payload
deriving Repr, DecidableEq

/-- Utility building the envelope (routers/service.py, response_formatter);
argument order as in the source: status_code, message, data, error_code. -/
def response_formatter (status_code : Int) (message : String)
    (data : Option Payload) (error_code : Option String) : Response :=
  { status_code := status_code
    error_code := error_code
    message := message
    data := data }

/-- Create payload for the single-record endpoints (class IntegrationCreate). -/
structure IntegrationCreate where
  integration_key : String
  account_id : Int
  private_key_file : String
  email : String
  status : String
deriving Repr, DecidableEq

/-- Required spreadsheet columns for bulk upload (routers/service.py line 80). -/
def requiredColumns : List String :=
  ["Integration Key", "User ID", "Account ID", "Email"]

/-- The try block of the bulk-upload row loop (routers/service.py lines 93 to
112): extract and coerce the four fields in source order, reject empty key or
email, otherwise build the staged Integration.  The first raised exception
wins, so a coercion error on User ID or Account ID precedes the emptiness
check, exactly as in the source. -/
def processRow (row : Row) : Except String Integration :=
  let integration_key := pyStrip (pyStr (Row.get row "Integration Key"))
  match pyInt (Row.get row "User ID") with
  | .error e => .error e
  | .ok user_id =>
    match pyInt (Row.get row "Account ID") with
    | .error e => .error e
    | .ok account_id =>
      let email := pyStrip (pyStr (Row.get row "Email"))
      if integration_key = "" || email = "" then
        .error "Invalid data: Empty Integration Key or Email"
      else
        .ok { integration_id := none
              integration_key := integration_key
              user_id := user_id
              account_id := account_id
              private_key_file := none
              email := email
              status := "active" }

/-- The row loop of bulk upload: returns success_count, failed_records and
the staged records, each in file order. -/
def processRows : List Row → Nat × List FailedRecord × List Integration
  | [] => (0, [], [])
  | row :: rest =>
    let acc := processRows rest
    match processRow row with
    | .ok i => (acc.1 + 1, acc.2.1, i :: acc.2.2)
    | .error e => (acc.1, ⟨row, e⟩ :: acc.2.1, acc.2.2)

/-- Bulk upload endpoint (routers/service.py lines 52 to 123): admin gate,
parse gate, required-columns gate, then the row loop followed by one commit
of all staged rows. -/
def bulk_upload_integrations (token_data : TokenData) (file : FileInput)
    (db : List Integration) : Response × List Integration :=
  if token_data.is_admin = false then
    ({ status_code := 403
       error_code := some "FORBIDDEN"
       message := "Permission denied"
       data := none }, db)
  else
    match file with
    | .unparseable =>
      ({ status_code := 400
         error_code := some "INVALID_FILE"
         message := "Invalid Excel file format"
         data := none }, db)
    | .parsed sheet =>
      if !requiredColumns.all (fun c => sheet.headers.contains c) then
        ({ status_code := 400
           error_code := some "MISSING_COLUMNS"
           message := "Excel file must contain Integration Key, User ID, Account ID, Email columns"
           data := none }, db)
      else
        let res := processRows sheet.rows
        ({ status_code := 200
           error_code := none
           message := "Successfully uploaded " ++ toString res.1 ++ " integrations"
           data := if res.2.1.isEmpty then none
                   else some (Payload.failedRecords res.2.1) },
         db ++ res.2.2)

/-- First record with the given primary key (the query filter plus first()
used by every single-record handler). -/
def findIntegration (db : List Integration) (integration_id : Int) : Option Integration :=
  db.find? (fun i => i.integration_id == some integration_id)

/-- Apply an update to the first record with the given primary key, leaving
the rest of the store unchanged (the ORM mutates the fetched object and
commits). -/
def updateFirst (db : List Integration) (integration_id : Int)
    (f : Integration → Integration) : List Integration :=
  match db with
  | [] => []
  | i :: rest =>
    if i.integration_id == some integration_id then f i :: rest
    else i :: updateFirst rest integration_id f

/-- Remove the first record with the given primary key (db.delete on the
fetched object). -/
def removeFirst (db : List Integration) (integration_id : Int) : List Integration :=
  match db with
  | [] => []
  | i :: rest =>
    if i.integration_id == some integration_id then rest
    else i :: removeFirst rest integration_id

/-- Create endpoint (routers/service.py lines 130 to 152).  The source guard
is Python truthiness on token_data.get of user_id; with identity always
resolved by the authentication collaborator this is falsy exactly for the
integer 0.  The store assigns the primary key on commit; no response field
proved about here observes it, so the staged record keeps none. -/
def create_integration (integration_data : IntegrationCreate) (token_data : TokenData)
    (db : List Integration) : Response × List Integration :=
  if token_data.user_id = 0 then
    (response_formatter 401 "Unauthorized" none (some "AUTH_401"), db)
  else
    let new_integration : Integration :=
      { integration_id := none
        integration_key := integration_data.integration_key
        user_id := token_data.user_id
        account_id := integration_data.account_id
        private_key_file := some integration_data.private_key_file
        email := integration_data.email
        status := integration_data.status }
    (response_formatter 201 "Integration created successfully"
      (some (Payload.integration new_integration)) none,
     db ++ [new_integration])

/-- List endpoint (routers/service.py lines 159 to 171). -/
def get_integrations (token_data : TokenData) (db : List Integration) : Response :=
  if token_data.is_admin = false then
    response_formatter 403 "Permission denied" none (some "PERMISSION_403")
  else if db.isEmpty then
    response_formatter 404 "No integrations found" none (some "DATA_404")
  else
    response_formatter 200 "Integrations retrieved successfully"
      (some (Payload.integrations db)) none

/-- Single-record read (routers/service.py lines 178 to 191): fetch, then
not-found, then ownership. -/
def get_integration (integration_id : Int) (token_data : TokenData)
    (db : List Integration) : Response :=
  match findIntegration db integration_id with
  | none => response_formatter 404 "Integration not found" none (some "DATA_404")
  | some integration =>
    if token_data.is_admin = false && token_data.user_id != integration.user_id then
      response_formatter 403 "Access denied" none (some "PERMISSION_403")
    else
      response_formatter 200 "Integration retrieved successfully"
        (some (Payload.integration integration)) none

/-- Field assignments of the update endpoint (routers/service.py lines 212
to 216); user_id is not among them. -/
def applyUpdate (integration_data : IntegrationCreate) (i : Integration) : Integration :=
  { i with
    integration_key := integration_data.integration_key
    account_id := integration_data.account_id
    private_key_file := some integration_data.private_key_file
    email := integration_data.email
    status := integration_data.status }

/-- Update endpoint (routers/service.py lines 198 to 221): fetch, not-found,
ownership, then assign fields and commit. -/
def update_integration (integration_id : Int) (integration_data : IntegrationCreate)
    (token_data : TokenData) (db : List Integration) : Response × List Integration :=
  match findIntegration db integration_id with
  | none => (response_formatter 404 "Integration not found" none (some "DATA_404"), db)
  | some integration =>
    if token_data.is_admin = false && token_data.user_id != integration.user_id then
      (response_formatter 403 "Access denied" none (some "PERMISSION_403"), db)
    else
      (response_formatter 200 "Integration updated successfully"
        (some (Payload.integration (applyUpdate integration_data integration))) none,
       updateFirst db integration_id (applyUpdate integration_data))

/-- Delete endpoint (routers/service.py lines 228 to 244): fetch, not-found,
ownership, then delete and commit. -/
def delete_integration (integration_id : Int) (token_data : TokenData)
    (db : List Integration) : Response × List Integration :=
  match findIntegration db integration_id with
  | none => (response_formatter 404 "Integration not found" none (some "DATA_404"), db)
  | some integration =>
    if token_data.is_admin = false && token_data.user_id != integration.user_id then
      (response_formatter 403 "Access denied" none (some "PERMISSION_403"), db)
    else
      (response_formatter 200 "Integration deleted successfully" none none,
       removeFirst db integration_id)

/-- Status flip of the toggle endpoint (routers/service.py line 266). -/
def toggledStatus (s : String) : String :=
  if s = "active" then "inactive" else "active"

/-- Toggle endpoint (routers/service.py lines 251 to 275): fetch, not-found,
ownership, flip the status, commit, and report the new status. -/
def toggle_integration_status (integration_id : Int) (token_data : TokenData)
    (db : List Integration) : Response × List Integration :=
  match findIntegration db integration_id with
  | none => (response_formatter 404 "Integration not found" none (some "DATA_404"), db)
  | some integration =>
    if token_data.is_admin = false && token_data.user_id != integration.user_id then
      (response_formatter 403 "Access denied" none (some "PERMISSION_403"), db)
    else
      let new_status := toggledStatus integration.status
      (response_formatter 200 ("Integration status updated to " ++ new_status)
        (some (Payload.toggleResult integration.integration_id new_status)) none,
       updateFirst db integration_id (fun i => { i with status := toggledStatus i.status }))

/-- The failed_records list carried by a response, empty when the data field
is absent or of another shape. -/
def Response.failedRecordsOf (r : Response) : List FailedRecord :=
  match r.data with
  | some (.failedRecords l) => l
  | _ => []

/-- The status_code and error_code pair of a response. -/
def pairOf (r : Response) : Int × Option String :=
  (r.status_code, r.error_code)

/-- Every status_code and error_code pair any endpoint can emit. -/
def envelopePairs : List (Int × Option String) :=
  [(200, none), (201, none),
   (400, some "INVALID_FILE"), (400, some "MISSING_COLUMNS"),
   (401, some "AUTH_401"),
   (403, some "FORBIDDEN"), (403, some "PERMISSION_403"),
   (404, some "DATA_404")]

/-- Concrete admin caller used by witnesses. -/
def tAdmin : TokenData := ⟨true, 1⟩

/-- Concrete non-admin caller with user_id 2 used by witnesses. -/
def tUser2 : TokenData := ⟨false, 2⟩

/-- Concrete valid spreadsheet row used by witnesses. -/
def rowOk : Row :=
  [("Integration Key", Cell.str "k1"), ("User ID", Cell.int 1),
   ("Account ID", Cell.int 7), ("Email", Cell.str "a@b.c")]

/-- Concrete row with blank key and blank email used by witnesses. -/
def rowBad : Row :=
  [("Integration Key", Cell.str " "), ("User ID", Cell.int 1),
   ("Account ID", Cell.int 7), ("Email", Cell.str "")]

/-- Concrete two-row sheet, one valid row and one invalid row. -/
def sheetW : Sheet :=
  ⟨["Integration Key", "User ID", "Account ID", "Email"], [rowOk, rowBad]⟩

/-- Concrete sheet whose headers miss the Email column. -/
def sheetNoEmail : Sheet :=
  ⟨["Integration Key", "User ID", "Account ID"], [rowOk]⟩

/-- Concrete stored record owned by user 1, status pending, used by witnesses. -/
def i1 : Integration :=
  ⟨some 1, "k1", 1, 7, some "pk", "a@b.c", "pending"⟩

/-- Concrete create payload used by witnesses. -/
def payloadW : IntegrationCreate :=
  ⟨"k2", 9, "pk2", "x@y.z", "active"⟩

/-! ### Helper lemmas about the row loop and the store -/

/-- A record the row loop accepts is built with status active and no
private_key_file, whatever the row contained. -/
theorem processRow_ok_fields (r : Row) (i : Integration) (h : processRow r = Except.ok i) :
    i.status = "active" ∧ i.private_key_file = none := by
  unfold processRow at h
  split at h
  · simp at h
  · split at h
    · simp at h
    · dsimp only at h
      split at h
      · simp at h
      · cases h
        exact ⟨rfl, rfl⟩

/-- success_count is the number of rows the per-row validation accepts. -/
theorem processRows_count (rows : List Row) :
    (processRows rows).1 = rows.countP (fun r => (processRow r).isOk) := by
  induction rows with
  | nil => rfl
  | cons r rest ih =>
    unfold processRows
    cases h : processRow r with
    | ok i => simp [h, List.countP_cons, ih, Except.isOk, Except.toBool]
    | error e => simp [h, List.countP_cons, ih, Except.isOk, Except.toBool]

/-- The staged list has exactly success_count records. -/
theorem processRows_staged_length (rows : List Row) :
    (processRows rows).2.2.length = (processRows rows).1 := by
  induction rows with
  | nil => rfl
  | cons r rest ih =>
    unfold processRows
    cases h : processRow r with
    | ok i => simp [h, ih]
    | error e => simp [h, ih]

/-- Every row ends up either in failed_records or in the staged list. -/
theorem processRows_failed_length (rows : List Row) :
    (processRows rows).2.1.length + (processRows rows).1 = rows.length := by
  induction rows with
  | nil => rfl
  | cons r rest ih =>
    unfold processRows
    cases h : processRow r with
    | ok i => simp only [h, List.length_cons]; omega
    | error e => simp only [h, List.length_cons]; omega

/-- failed_records is exactly the rejected rows, each paired with its error,
in file order. -/
theorem processRows_failed_eq (rows : List Row) :
    (processRows rows).2.1 = rows.filterMap (fun r =>
      match processRow r with
      | .error e => some ⟨r, e⟩
      | .ok _ => none) := by
  induction rows with
  | nil => rfl
  | cons r rest ih =>
    unfold processRows
    cases h : processRow r with
    | ok i => simp [h, List.filterMap_cons, ih]
    | error e => simp [h, List.filterMap_cons, ih]

/-- The rows recorded in failed_records form a sublist of the input rows:
their relative order is the file order. -/
theorem processRows_failed_sublist (rows : List Row) :
    ((processRows rows).2.1.map FailedRecord.row).Sublist rows := by
  induction rows with
  | nil => simp [processRows]
  | cons r rest ih =>
    unfold processRows
    cases h : processRow r with
    | ok i => simp only [h]; exact ih.cons r
    | error e => simp only [h, List.map_cons]; exact ih.cons₂ r

/-- Every staged record carries status active and no private_key_file. -/
theorem processRows_staged_fields (rows : List Row) :
    ∀ i ∈ (processRows rows).2.2, i.status = "active" ∧ i.private_key_file = none := by
  induction rows with
  | nil => intro i hi; simp [processRows] at hi
  | cons r rest ih =>
    intro i hi
    unfold processRows at hi
    cases h : processRow r with
    | ok j =>
      rw [h] at hi
      simp only [List.mem_cons] at hi
      cases hi with
      | inl hij => exact hij ▸ processRow_ok_fields r j h
      | inr hmem => exact ih i hmem
    | error e =>
      rw [h] at hi
      exact ih i hi

/-- Unfolding of bulk upload on the success path: admin caller, parseable
file, all required columns present. -/
theorem bulk_ok_eq (t : TokenData) (sheet : Sheet) (db : List Integration)
    (hadmin : t.is_admin = true)
    (hcols : requiredColumns.all (fun c => sheet.headers.contains c) = true) :
    bulk_upload_integrations t (FileInput.parsed sheet) db =
      ({ status_code := 200
         error_code := none
         message := "Successfully uploaded " ++ toString (processRows sheet.rows).1 ++ " integrations"
         data := if (processRows sheet.rows).2.1.isEmpty then none
                 else some (Payload.failedRecords (processRows sheet.rows).2.1) },
       db ++ (processRows sheet.rows).2.2) := by
  have h2 : ∀ x ∈ requiredColumns, x ∈ sheet.headers := by simpa using hcols
  simp [bulk_upload_integrations, hadmin, h2]
  exact h2

/-- Updating the record with a given key by a key-preserving function
commutes with looking that key up. -/
theorem findIntegration_updateFirst (db : List Integration) (id : Int)
    (f : Integration → Integration) (hf : ∀ i, (f i).integration_id = i.integration_id) :
    findIntegration (updateFirst db id f) id = (findIntegration db id).map f := by
  induction db with
  | nil => rfl
  | cons i rest ih =>
    cases h : (i.integration_id == some id) with
    | true =>
      have hfi : ((f i).integration_id == some id) = true := by rw [hf]; exact h
      simp only [findIntegration, updateFirst, h, if_true, List.find?]
      rw [hfi]
      rfl
    | false =>
      have hfi : ((f i).integration_id == some id) = false := by rw [hf]; exact h
      simp [findIntegration, updateFirst, h, hfi, List.find?, ih]
      simpa [findIntegration] using ih

/-- On the success path the failed_records carried by the response are the
failed_records of the row loop, also when the list is empty and the data
field is absent. -/
theorem bulk_failed_eq (t : TokenData) (sheet : Sheet) (db : List Integration)
    (hadmin : t.is_admin = true)
    (hcols : requiredColumns.all (fun c => sheet.headers.contains c) = true) :
    (bulk_upload_integrations t (FileInput.parsed sheet) db).1.failedRecordsOf =
      (processRows sheet.rows).2.1 := by
  rw [bulk_ok_eq t sheet db hadmin hcols]
  by_cases he : (processRows sheet.rows).2.1.isEmpty
  · have h0 : (processRows sheet.rows).2.1 = [] := by simpa [List.isEmpty_iff] using he
    simp [Response.failedRecordsOf, he, h0]
  · simp [Response.failedRecordsOf, he]

/-- On the success path the data field is absent exactly when no row failed. -/
theorem bulk_data_eq (t : TokenData) (sheet : Sheet) (db : List Integration)
    (hadmin : t.is_admin = true)
    (hcols : requiredColumns.all (fun c => sheet.headers.contains c) = true) :
    ((bulk_upload_integrations t (FileInput.parsed sheet) db).1.data = none ↔
      (processRows sheet.rows).2.1 = []) := by
  rw [bulk_ok_eq t sheet db hadmin hcols]
  by_cases he : (processRows sheet.rows).2.1.isEmpty
  · have h0 : (processRows sheet.rows).2.1 = [] := by simpa [List.isEmpty_iff] using he
    simp [he, h0]
  · have h0 : (processRows sheet.rows).2.1 ≠ [] := by simpa [List.isEmpty_iff] using he
    simp [he, h0]

/-! ### Claim theorems -/

/-- Claim C1: for an admin caller and a parseable file with all required
columns, a batch of N rows of which exactly K are individually valid commits
exactly K new Integration rows, the message reports success_count K,
failed_records has length N minus K, and the data field is none exactly when
K equals N. -/
theorem bulk_upload_partial_success (t : TokenData) (sheet : Sheet) (db : List Integration)
    (hadmin : t.is_admin = true)
    (hcols : requiredColumns.all (fun c => sheet.headers.contains c) = true) :
    (bulk_upload_integrations t (FileInput.parsed sheet) db).2 =
        db ++ (processRows sheet.rows).2.2 ∧
    (bulk_upload_integrations t (FileInput.parsed sheet) db).2.length =
        db.length + sheet.rows.countP (fun r => (processRow r).isOk) ∧
    (bulk_upload_integrations t (FileInput.parsed sheet) db).1.message =
        "Successfully uploaded " ++
          toString (sheet.rows.countP (fun r => (processRow r).isOk)) ++ " integrations" ∧
    (bulk_upload_integrations t (FileInput.parsed sheet) db).1.failedRecordsOf.length =
        sheet.rows.length - sheet.rows.countP (fun r => (processRow r).isOk) ∧
    ((bulk_upload_integrations t (FileInput.parsed sheet) db).1.data = none ↔
        sheet.rows.countP (fun r => (processRow r).isOk) = sheet.rows.length) := by
  have hcount := processRows_count sheet.rows
  have hstag := processRows_staged_length sheet.rows
  have hfail := processRows_failed_length sheet.rows
  refine ⟨?_, ?_, ?_, ?_, ?_⟩
  · rw [bulk_ok_eq t sheet db hadmin hcols]
  · rw [bulk_ok_eq t sheet db hadmin hcols]
    simp only [List.length_append]
    omega
  · rw [bulk_ok_eq t sheet db hadmin hcols, hcount]
  · rw [bulk_failed_eq t sheet db hadmin hcols]
    omega
  · rw [bulk_data_eq t sheet db hadmin hcols]
    constructor
    · intro h
      have h0 : (processRows sheet.rows).2.1.length = 0 := by rw [h]; rfl
      omega
    · intro h
      have h0 : (processRows sheet.rows).2.1.length = 0 := by omega
      exact List.length_eq_zero.mp h0

/-- Witness for C1 at a concrete admin caller, a two-row sheet with one valid
and one invalid row, and an empty store. -/
theorem bulk_upload_partial_success_witness :
    tAdmin.is_admin = true ∧
    requiredColumns.all (fun c => sheetW.headers.contains c) = true ∧
    (bulk_upload_integrations tAdmin (FileInput.parsed sheetW) ([] : List Integration)).2.length =
      ([] : List Integration).length + sheetW.rows.countP (fun r => (processRow r).isOk) :=
  ⟨rfl, by decide, (bulk_upload_partial_success tAdmin sheetW [] rfl (by decide)).2.1⟩

/-- Claim C3: a caller without the admin capability gets status 403 with
error_code FORBIDDEN and the store is returned unchanged, for every payload,
so no parsing and no insertion happens. -/
theorem bulk_upload_forbidden (t : TokenData) (file : FileInput) (db : List Integration)
    (h : t.is_admin = false) :
    bulk_upload_integrations t file db =
      ({ status_code := 403
         error_code := some "FORBIDDEN"
         message := "Permission denied"
         data := none }, db) := by
  simp [bulk_upload_integrations, h]

/-- Witness for C3 at a concrete non-admin caller, an unparseable payload and
a one-record store. -/
theorem bulk_upload_forbidden_witness :
    tUser2.is_admin = false ∧
    bulk_upload_integrations tUser2 FileInput.unparseable [i1] =
      ({ status_code := 403
         error_code := some "FORBIDDEN"
         message := "Permission denied"
         data := none }, [i1]) :=
  ⟨rfl, bulk_upload_forbidden tUser2 FileInput.unparseable [i1] rfl⟩

/-- Claim C4: for an admin caller, an unparseable payload yields status 400
with error_code INVALID_FILE, and a parsed sheet missing a required column
yields status 400 with error_code MISSING_COLUMNS; both abort with the store
unchanged and no per-row processing. -/
theorem bulk_upload_structural_aborts (t : TokenData) (sheet : Sheet) (db : List Integration)
    (hadmin : t.is_admin = true) :
    bulk_upload_integrations t FileInput.unparseable db =
      ({ status_code := 400
         error_code := some "INVALID_FILE"
         message := "Invalid Excel file format"
         data := none }, db) ∧
    (requiredColumns.all (fun c => sheet.headers.contains c) = false →
      bulk_upload_integrations t (FileInput.parsed sheet) db =
        ({ status_code := 400
           error_code := some "MISSING_COLUMNS"
           message := "Excel file must contain Integration Key, User ID, Account ID, Email columns"
           data := none }, db)) := by
  constructor
  · simp [bulk_upload_integrations, hadmin]
  · intro hc
    have h1 : ¬ (t.is_admin = false) := by rw [hadmin]; simp
    unfold bulk_upload_integrations
    rw [if_neg h1]
    dsimp only
    rw [hc]
    rfl

/-- Witness for C4 at a concrete admin caller, a sheet missing the Email
column and a one-record store. -/
theorem bulk_upload_structural_aborts_witness :
    tAdmin.is_admin = true ∧
    requiredColumns.all (fun c => sheetNoEmail.headers.contains c) = false ∧
    bulk_upload_integrations tAdmin (FileInput.parsed sheetNoEmail) [i1] =
      ({ status_code := 400
         error_code := some "MISSING_COLUMNS"
         message := "Excel file must contain Integration Key, User ID, Account ID, Email columns"
         data := none }, [i1]) :=
  ⟨rfl, by decide,
   (bulk_upload_structural_aborts tAdmin sheetNoEmail [i1] rfl).2 (by decide)⟩

/-- Claim C5: every Integration record bulk upload adds to the store has
status active, for every valid input row and whatever the other columns
contain. -/
theorem bulk_upload_staged_active (t : TokenData) (sheet : Sheet) (db : List Integration)
    (hadmin : t.is_admin = true)
    (hcols : requiredColumns.all (fun c => sheet.headers.contains c) = true) :
    ∀ i ∈ ((bulk_upload_integrations t (FileInput.parsed sheet) db).2).drop db.length,
      i.status = "active" := by
  intro i hi
  rw [bulk_ok_eq t sheet db hadmin hcols] at hi
  simp only [List.drop_left] at hi
  exact (processRows_staged_fields sheet.rows i hi).1

/-- Witness for C5: the record staged from the valid row of the concrete
sheet has status active. -/
theorem bulk_upload_staged_active_witness :
    (⟨none, "k1", 1, 7, none, "a@b.c", "active"⟩ : Integration).status = "active" :=
  bulk_upload_staged_active tAdmin sheetW [] rfl (by decide)
    ⟨none, "k1", 1, 7, none, "a@b.c", "active"⟩ (by decide)

/-- Claim C6: the entries of failed_records are exactly the rejected rows in
file order; equivalently their source rows form a sublist of the sheet rows,
and the importer is a deterministic function of its input. -/
theorem failed_records_preserve_order (t : TokenData) (sheet : Sheet) (db : List Integration)
    (hadmin : t.is_admin = true)
    (hcols : requiredColumns.all (fun c => sheet.headers.contains c) = true) :
    (bulk_upload_integrations t (FileInput.parsed sheet) db).1.failedRecordsOf =
      sheet.rows.filterMap (fun r =>
        match processRow r with
        | .error e => some ⟨r, e⟩
        | .ok _ => none) ∧
    ((bulk_upload_integrations t (FileInput.parsed sheet) db).1.failedRecordsOf.map
        FailedRecord.row).Sublist sheet.rows := by
  constructor
  · rw [bulk_failed_eq t sheet db hadmin hcols]
    exact processRows_failed_eq sheet.rows
  · rw [bulk_failed_eq t sheet db hadmin hcols]
    exact processRows_failed_sublist sheet.rows

/-- Witness for C6 at the concrete two-row sheet: the rejected rows appear
as a sublist of the sheet rows. -/
theorem failed_records_preserve_order_witness :
    ((bulk_upload_integrations tAdmin (FileInput.parsed sheetW) []).1.failedRecordsOf.map
        FailedRecord.row).Sublist sheetW.rows :=
  (failed_records_preserve_order tAdmin sheetW [] rfl (by decide)).2

/-- Claim C2: a row is rejected exactly when its Integration Key strips to
empty, or its Email strips to empty, or its User ID or Account ID fails
integer coercion; a rejected row is recorded in failed_records as the
original field map paired with the error description, is not staged, and
processing continues with the remaining rows. -/
theorem row_rejection_criterion (r : Row) :
    ((processRow r).isOk = false ↔
      (pyStrip (pyStr (Row.get r "Integration Key")) = "" ∨
       pyStrip (pyStr (Row.get r "Email")) = "" ∨
       (pyInt (Row.get r "User ID")).isOk = false ∨
       (pyInt (Row.get r "Account ID")).isOk = false)) ∧
    (∀ (e : String) (rest : List Row), processRow r = Except.error e →
      processRows (r :: rest) =
        ((processRows rest).1,
         ⟨r, e⟩ :: (processRows rest).2.1,
         (processRows rest).2.2)) := by
  constructor
  · unfold processRow
    cases hu : pyInt (Row.get r "User ID") with
    | error e => simp [Except.isOk, Except.toBool, hu]
    | ok u =>
      cases ha : pyInt (Row.get r "Account ID") with
      | error e => simp [Except.isOk, Except.toBool, hu, ha]
      | ok a =>
        by_cases hk : pyStrip (pyStr (Row.get r "Integration Key")) = ""
        · simp [Except.isOk, Except.toBool, hu, ha, hk]
        · by_cases hm : pyStrip (pyStr (Row.get r "Email")) = ""
          · simp [Except.isOk, Except.toBool, hu, ha, hk, hm]
          · simp [Except.isOk, Except.toBool, hu, ha, hk, hm]
  · intro e rest h
    have step : processRows (r :: rest) =
        (match processRow r with
         | .ok i =>
           ((processRows rest).1 + 1, (processRows rest).2.1, i :: (processRows rest).2.2)
         | .error e2 =>
           ((processRows rest).1, ⟨r, e2⟩ :: (processRows rest).2.1,
            (processRows rest).2.2)) := rfl
    rw [step, h]

/-- Witness for C2 at a concrete row whose key and email strip to empty: it
is rejected with the validation message and recorded, not staged. -/
theorem row_rejection_criterion_witness :
    processRow rowBad = Except.error "Invalid data: Empty Integration Key or Email" ∧
    processRows [rowBad] =
      ((processRows ([] : List Row)).1,
       ⟨rowBad, "Invalid data: Empty Integration Key or Email"⟩ ::
         (processRows ([] : List Row)).2.1,
       (processRows ([] : List Row)).2.2) :=
  ⟨rfl, (row_rejection_criterion rowBad).2
    "Invalid data: Empty Integration Key or Email" [] rfl⟩

/-- Claim C7: every endpoint returns the envelope record with status_code,
error_code, message and data fields, and on every input the status_code and
error_code pair lies in the fixed table of stable codes; the handlers are
total functions of their inputs, so every path produces the envelope and no
exception escapes. -/
theorem envelope_stability (t : TokenData) (file : FileInput) (db : List Integration)
    (id : Int) (payload : IntegrationCreate) :
    pairOf (bulk_upload_integrations t file db).1 ∈ envelopePairs ∧
    pairOf (create_integration payload t db).1 ∈ envelopePairs ∧
    pairOf (get_integrations t db) ∈ envelopePairs ∧
    pairOf (get_integration id t db) ∈ envelopePairs ∧
    pairOf (update_integration id payload t db).1 ∈ envelopePairs ∧
    pairOf (delete_integration id t db).1 ∈ envelopePairs ∧
    pairOf (toggle_integration_status id t db).1 ∈ envelopePairs := by
  refine ⟨?_, ?_, ?_, ?_, ?_, ?_, ?_⟩
  · cases hb : t.is_admin with
    | false => simp [bulk_upload_integrations, hb, pairOf, envelopePairs]
    | true =>
      cases file with
      | unparseable => simp [bulk_upload_integrations, hb, pairOf, envelopePairs]
      | parsed sheet =>
        by_cases hc : requiredColumns.all (fun c => sheet.headers.contains c) = true
        · rw [bulk_ok_eq t sheet db hb hc]
          simp [pairOf, envelopePairs]
        · have hc2 : (requiredColumns.all fun c => sheet.headers.contains c) = false := by
            simpa using hc
          have h1 : ¬ (t.is_admin = false) := by rw [hb]; simp
          unfold bulk_upload_integrations
          rw [if_neg h1]
          dsimp only
          rw [hc2]
          simp [pairOf, envelopePairs]
  · by_cases h : t.user_id = 0
    · simp [create_integration, h, response_formatter, pairOf, envelopePairs]
    · simp [create_integration, h, response_formatter, pairOf, envelopePairs]
  · by_cases h : t.is_admin = false
    · simp [get_integrations, h, response_formatter, pairOf, envelopePairs]
    · by_cases he : db.isEmpty = true
      · simp [get_integrations, h, he, response_formatter, pairOf, envelopePairs]
      · simp [get_integrations, h, he, response_formatter, pairOf, envelopePairs]
  · cases hf : findIntegration db id with
    | none => simp [get_integration, hf, response_formatter, pairOf, envelopePairs]
    | some integ =>
      by_cases hp : t.is_admin = false ∧ ¬ t.user_id = integ.user_id
      · simp [get_integration, hf, hp, response_formatter, pairOf, envelopePairs]
      · simp [get_integration, hf, hp, response_formatter, pairOf, envelopePairs]
  · cases hf : findIntegration db id with
    | none => simp [update_integration, hf, response_formatter, pairOf, envelopePairs]
    | some integ =>
      by_cases hp : t.is_admin = false ∧ ¬ t.user_id = integ.user_id
      · simp [update_integration, hf, hp, response_formatter, pairOf, envelopePairs]
      · simp [update_integration, hf, hp, response_formatter, pairOf, envelopePairs]
  · cases hf : findIntegration db id with
    | none => simp [delete_integration, hf, response_formatter, pairOf, envelopePairs]
    | some integ =>
      by_cases hp : t.is_admin = false ∧ ¬ t.user_id = integ.user_id
      · simp [delete_integration, hf, hp, response_formatter, pairOf, envelopePairs]
      · simp [delete_integration, hf, hp, response_formatter, pairOf, envelopePairs]
  · cases hf : findIntegration db id with
    | none => simp [toggle_integration_status, hf, response_formatter, pairOf, envelopePairs]
    | some integ =>
      by_cases hp : t.is_admin = false ∧ ¬ t.user_id = integ.user_id
      · simp [toggle_integration_status, hf, hp, response_formatter, pairOf, envelopePairs]
      · simp [toggle_integration_status, hf, hp, response_formatter, pairOf, envelopePairs]

/-- Claim C8: for an authorized caller and an existing record, toggle sets
the status to inactive when it was active and to active otherwise; the
status after a toggle is always active or inactive, and the store holds the
flipped record, so no other status value is reachable via toggle. -/
theorem toggle_status_flips (id : Int) (t : TokenData) (db : List Integration)
    (integ : Integration) (hfind : findIntegration db id = some integ)
    (hauth : t.is_admin = true ∨ t.user_id = integ.user_id) :
    toggle_integration_status id t db =
      (response_formatter 200 ("Integration status updated to " ++ toggledStatus integ.status)
        (some (Payload.toggleResult integ.integration_id (toggledStatus integ.status))) none,
       updateFirst db id (fun i => { i with status := toggledStatus i.status })) ∧
    (integ.status = "active" → toggledStatus integ.status = "inactive") ∧
    (¬ integ.status = "active" → toggledStatus integ.status = "active") ∧
    (toggledStatus integ.status = "active" ∨ toggledStatus integ.status = "inactive") ∧
    findIntegration (toggle_integration_status id t db).2 id =
      some { integ with status := toggledStatus integ.status } := by
  have hp : ¬ (t.is_admin = false ∧ ¬ t.user_id = integ.user_id) := by
    rcases hauth with h | h
    · simp [h]
    · simp [h]
  have hmain : toggle_integration_status id t db =
      (response_formatter 200 ("Integration status updated to " ++ toggledStatus integ.status)
        (some (Payload.toggleResult integ.integration_id (toggledStatus integ.status))) none,
       updateFirst db id (fun i => { i with status := toggledStatus i.status })) := by
    simp [toggle_integration_status, hfind, hp]
  refine ⟨hmain, ?_, ?_, ?_, ?_⟩
  · intro h
    simp [toggledStatus, h]
  · intro h
    simp [toggledStatus, h]
  · by_cases h : integ.status = "active"
    · right
      simp [toggledStatus, h]
    · left
      simp [toggledStatus, h]
  · rw [hmain]
    dsimp only
    rw [findIntegration_updateFirst db id
      (fun i => { i with status := toggledStatus i.status }) (fun i => rfl), hfind]
    rfl

/-- Witness for C8 at a concrete admin caller and a stored record with
status pending: the toggled status is active or inactive. -/
theorem toggle_status_flips_witness :
    toggledStatus i1.status = "active" ∨ toggledStatus i1.status = "inactive" :=
  (toggle_status_flips 1 tAdmin [i1] i1 rfl (Or.inl rfl)).2.2.2.1

/-- Claim C9: every record bulk upload stages has no private_key_file value,
although the schema declares the column non-nullable and single-record
creation always supplies it. -/
theorem bulk_private_key_unset (t : TokenData) (sheet : Sheet) (db : List Integration)
    (d : IntegrationCreate) (t2 : TokenData)
    (hadmin : t.is_admin = true)
    (hcols : requiredColumns.all (fun c => sheet.headers.contains c) = true)
    (huser : ¬ t2.user_id = 0) :
    (∀ i ∈ ((bulk_upload_integrations t (FileInput.parsed sheet) db).2).drop db.length,
       i.private_key_file = none) ∧
    integrationTable.find? (fun c => c.name == "private_key_file") =
       some ⟨"private_key_file", false⟩ ∧
    (create_integration d t2 db).2 = db ++
       [{ integration_id := none
          integration_key := d.integration_key
          user_id := t2.user_id
          account_id := d.account_id
          private_key_file := some d.private_key_file
          email := d.email
          status := d.status }] := by
  refine ⟨?_, rfl, ?_⟩
  · intro i hi
    rw [bulk_ok_eq t sheet db hadmin hcols] at hi
    simp only [List.drop_left] at hi
    exact (processRows_staged_fields sheet.rows i hi).2
  · simp [create_integration, huser]

/-- Witness for C9: the record staged from the valid row of the concrete
sheet carries no private_key_file. -/
theorem bulk_private_key_unset_witness :
    (⟨none, "k1", 1, 7, none, "a@b.c", "active"⟩ : Integration).private_key_file = none :=
  (bulk_private_key_unset tAdmin sheetW [] payloadW tAdmin rfl (by decide) (by decide)).1
    ⟨none, "k1", 1, 7, none, "a@b.c", "active"⟩ (by decide)

/-- Claim C10: in get, update, delete and toggle the not-found check comes
first: a missing integration_id yields 404 for every caller, and a 403 is
returned exactly when the record exists, the caller is not admin and owns a
different user_id. -/
theorem notfound_precedes_ownership (id : Int) (t : TokenData) (db : List Integration)
    (d : IntegrationCreate) :
    (findIntegration db id = none →
       get_integration id t db =
         response_formatter 404 "Integration not found" none (some "DATA_404") ∧
       update_integration id d t db =
         (response_formatter 404 "Integration not found" none (some "DATA_404"), db) ∧
       delete_integration id t db =
         (response_formatter 404 "Integration not found" none (some "DATA_404"), db) ∧
       toggle_integration_status id t db =
         (response_formatter 404 "Integration not found" none (some "DATA_404"), db)) ∧
    (∀ integ, findIntegration db id = some integ → t.is_admin = false →
       ¬ t.user_id = integ.user_id →
       get_integration id t db =
         response_formatter 403 "Access denied" none (some "PERMISSION_403") ∧
       update_integration id d t db =
         (response_formatter 403 "Access denied" none (some "PERMISSION_403"), db) ∧
       delete_integration id t db =
         (response_formatter 403 "Access denied" none (some "PERMISSION_403"), db) ∧
       toggle_integration_status id t db =
         (response_formatter 403 "Access denied" none (some "PERMISSION_403"), db)) ∧
    ((get_integration id t db).status_code = 403 →
       ∃ integ, findIntegration db id = some integ ∧ t.is_admin = false ∧
         ¬ t.user_id = integ.user_id) ∧
    ((update_integration id d t db).1.status_code = 403 →
       ∃ integ, findIntegration db id = some integ ∧ t.is_admin = false ∧
         ¬ t.user_id = integ.user_id) ∧
    ((delete_integration id t db).1.status_code = 403 →
       ∃ integ, findIntegration db id = some integ ∧ t.is_admin = false ∧
         ¬ t.user_id = integ.user_id) ∧
    ((toggle_integration_status id t db).1.status_code = 403 →
       ∃ integ, findIntegration db id = some integ ∧ t.is_admin = false ∧
         ¬ t.user_id = integ.user_id) := by
  refine ⟨?_, ?_, ?_, ?_, ?_, ?_⟩
  · intro hf
    exact ⟨by simp [get_integration, hf],
           by simp [update_integration, hf],
           by simp [delete_integration, hf],
           by simp [toggle_integration_status, hf]⟩
  · intro integ hf hadm hne
    have hp : t.is_admin = false ∧ ¬ t.user_id = integ.user_id := ⟨hadm, hne⟩
    exact ⟨by simp [get_integration, hf, hadm, hne],
           by simp [update_integration, hf, hadm, hne],
           by simp [delete_integration, hf, hadm, hne],
           by simp [toggle_integration_status, hf, hadm, hne]⟩
  · intro h
    cases hf : findIntegration db id with
    | none => simp [get_integration, hf, response_formatter] at h
    | some integ =>
      by_cases hp : t.is_admin = false ∧ ¬ t.user_id = integ.user_id
      · exact ⟨integ, rfl, hp.1, hp.2⟩
      · simp [get_integration, hf, hp, response_formatter] at h
  · intro h
    cases hf : findIntegration db id with
    | none => simp [update_integration, hf, response_formatter] at h
    | some integ =>
      by_cases hp : t.is_admin = false ∧ ¬ t.user_id = integ.user_id
      · exact ⟨integ, rfl, hp.1, hp.2⟩
      · simp [update_integration, hf, hp, response_formatter] at h
  · intro h
    cases hf : findIntegration db id with
    | none => simp [delete_integration, hf, response_formatter] at h
    | some integ =>
      by_cases hp : t.is_admin = false ∧ ¬ t.user_id = integ.user_id
      · exact ⟨integ, rfl, hp.1, hp.2⟩
      · simp [delete_integration, hf, hp, response_formatter] at h
  · intro h
    cases hf : findIntegration db id with
    | none => simp [toggle_integration_status, hf, response_formatter] at h
    | some integ =>
      by_cases hp : t.is_admin = false ∧ ¬ t.user_id = integ.user_id
      · exact ⟨integ, rfl, hp.1, hp.2⟩
      · simp [toggle_integration_status, hf, hp, response_formatter] at h

/-- Witness for C10: a request for a missing integration_id by an admin
caller yields the not-found envelope. -/
theorem notfound_precedes_ownership_witness :
    get_integration 99 tAdmin [i1] =
      response_formatter 404 "Integration not found" none (some "DATA_404") :=
  ((notfound_precedes_ownership 99 tAdmin [i1] payloadW).1 (by decide)).1
